import Mathlib

/-!
Verification of the glados-mcp TTS orchestration layer
(src/glados-mcp/tts/glados_manager.py and src/glados-mcp/tts/server.py).

Audio samples are rationals. External collaborators (the two synthesizers,
the sounddevice output device, the soundfile reader, the text normalizer
and the random module) are modelled by environment records describing the
outcome of each external call; the side effects of one call are recorded
as an event trace.
-/

/-- Events emitted towards external collaborators during one call:
synthesizer construction, synthesis invocations, and the two sounddevice
operations the code uses (`sd.play`, whose loop flag defaults to `false`
in the library and is never passed by this code, and `sd.wait`). -/
inductive Ev where
  | constructKokoro (voice : String)
  | synthGlados (spokenText : String)
  | synthKokoro (voice : String) (spokenText : String)
  | play (samples : List ℚ) (rate : ℕ) (loop : Bool)
  | wait
  deriving DecidableEq, Repr

/-- State of `GladosManager` relevant to the claims (glados_manager.py
lines 73-104): the two synthesizer fields as `Option Unit` presence
markers (`none` models Python `None`) and the Kokoro voice catalog. -/
structure GladosManager where
  glados_synth : Option Unit
  kokoro_synth : Option Unit
  kokoro_voices : List String
  deriving DecidableEq, Repr

/-- Outcomes of the external collaborators consulted during one `speak`
call: the two `random` module draws of `_speak_glados`, the text
normalizer (`SpokenTextConverter.text_to_spoken`, pure), the results of
the synthesizer calls (`Except.error` models a raised exception carrying
its message), the fixed sample rates, and whether the sounddevice calls
raise. -/
structure Env where
  coin : ℚ
  choiceIdx : ℕ
  toSpoken : String → String
  gladosGen : Except String (List ℚ)
  gladosRate : ℕ
  kokoroConstruct : Except String Unit
  kokoroGen : Except String (List ℚ)
  kokoroRate : ℕ
  playOutcome : Except String Unit

/-- Python's `str.lower()` on the underlying character list (used by
`speak` for the case-insensitive sentinel test `voice.lower() ==
"glados"`). -/
def strLower (s : String) : String := ⟨s.data.map Char.toLower⟩

/-- Python's `str.startswith(p)` on the underlying character lists (used
by `get_available_voices` for the demographic prefix tests). -/
def strStartsWith (s p : String) : Bool := p.data.isPrefixOf s.data

/-- The five sassy prefix strings of `_speak_glados`
(glados_manager.py lines 171-177). -/
def sassyPrefixes : List String :=
  ["Oh, how amusing. ", "Well, well. ", "I see. ", "How... predictable. ",
   "Fascinating. "]

/-- The personality step of `_speak_glados` (lines 169-178): when
`random.random() < 0.3`, `random.choice` prepends one prefix picked by
the uniform draw `choiceIdx`; otherwise the text is unchanged. -/
def personality (env : Env) (text : String) : String :=
  if env.coin < 3/10 then
    sassyPrefixes.getD (env.choiceIdx % sassyPrefixes.length) "" ++ text
  else text

/-- The body of `GladosManager._play_audio` (lines 210-218): clamp the
volume with `max(0.0, min(1.0, volume))`, scale every sample by it, then
`sd.play(audio_scaled, sample_rate)` followed by `sd.wait()`. -/
def playAudio (audio : List ℚ) (sample_rate : ℕ) (volume : ℚ) : List Ev :=
  [Ev.play (audio.map fun s => s * max 0 (min 1 volume)) sample_rate false,
   Ev.wait]

/-- The body of `GladosManager._speak_glados` (lines 166-188): apply the
personality step, synthesize the spoken form via `glados_synth` (an unset
`glados_synth` raises at the attribute access, before any synthesis
call), play, and return the status string quoting the possibly-prefixed
text; any exception yields the fixed message with no cause attached. -/
def speakGlados (mgr : GladosManager) (env : Env) (text : String)
    (volume : ℚ) : String × List Ev :=
  let t := personality env text
  match mgr.glados_synth with
  | none => ("Speech synthesis failed. How disappointing.", [])
  | some _ =>
    match env.gladosGen with
    | .error _ =>
        ("Speech synthesis failed. How disappointing.",
         [Ev.synthGlados (env.toSpoken t)])
    | .ok audio =>
      match env.playOutcome with
      | .error _ =>
          ("Speech synthesis failed. How disappointing.",
           [Ev.synthGlados (env.toSpoken t)])
      | .ok _ =>
          ("GLaDOS: '" ++ t ++ "'",
           Ev.synthGlados (env.toSpoken t) ::
             playAudio audio env.gladosRate volume)

/-- The body of `GladosManager._speak_kokoro` (lines 190-208): validate
the voice against the catalog (failure returns the not-found message
listing the first five catalog voices and makes no external call), build
a fresh `KokoroSynthesizer(voice=voice)`, synthesize the spoken form,
play; any exception yields a message carrying the exception text. -/
def speakKokoro (mgr : GladosManager) (env : Env) (text voice : String)
    (volume : ℚ) : String × List Ev :=
  if voice ∉ mgr.kokoro_voices then
    ("Voice '" ++ voice ++ "' not found. Try: " ++
       String.intercalate ", " (mgr.kokoro_voices.take 5) ++ "...", [])
  else
    match env.kokoroConstruct with
    | .error e => ("Voice synthesis failed: " ++ e, [Ev.constructKokoro voice])
    | .ok _ =>
      match env.kokoroGen with
      | .error e =>
          ("Voice synthesis failed: " ++ e,
           [Ev.constructKokoro voice,
            Ev.synthKokoro voice (env.toSpoken text)])
      | .ok audio =>
        match env.playOutcome with
        | .error e =>
            ("Voice synthesis failed: " ++ e,
             [Ev.constructKokoro voice,
              Ev.synthKokoro voice (env.toSpoken text)])
        | .ok _ =>
            ("Kokoro (" ++ voice ++ "): '" ++ text ++ "'",
             Ev.constructKokoro voice ::
               Ev.synthKokoro voice (env.toSpoken text) ::
                 playAudio audio env.kokoroRate volume)

/-- The body of `GladosManager.speak` (lines 139-164): `voice is None or
voice.lower() == "glados"` selects the GLaDOS path with default volume
0.55 when none is supplied; every other voice goes to the Kokoro path
with default volume 1.0. -/
def speak (mgr : GladosManager) (env : Env) (text : String)
    (voice : Option String) (volume : Option ℚ) : String × List Ev :=
  match voice with
  | none => speakGlados mgr env text (volume.getD (11/20))
  | some v =>
    if strLower v = "glados" then speakGlados mgr env text (volume.getD (11/20))
    else speakKokoro mgr env text v (volume.getD 1)

/-- The `speak` MCP tool of server.py (lines 23-67): it declares
`volume: float = 1.0` and always forwards `glados.speak(text, voice,
volume)`, so the manager receives an explicit volume on every call. -/
def serverSpeak (mgr : GladosManager) (env : Env) (text : String)
    (voice : Option String) (volume : ℚ) : String × List Ev :=
  speak mgr env text voice (some volume)

/-- The `speak` MCP tool invoked without a volume argument: the declared
default `volume = 1.0` of server.py line 24 applies. -/
def serverSpeakDefault (mgr : GladosManager) (env : Env) (text : String)
    (voice : Option String) : String × List Ev :=
  serverSpeak mgr env text voice 1

/-- Outcomes of the external calls made by `alert`: whether each sound
file exists, the decoded file contents (`sf.read` gives samples and a
sample rate), and whether the read or the device call raises. -/
structure AlertEnv where
  radioExists : Bool
  chimeExists : Bool
  radioData : List ℚ × ℕ
  chimeData : List ℚ × ℕ
  readOutcome : Except String Unit

/-- The body of `GladosManager.alert` (lines 106-137): map the kind to a
sound file, reject unknown kinds before any side effect, report a
missing file, and otherwise `sd.play` the clip with no `sd.wait` (and
without the `loop` flag, which sounddevice defaults to `False`). -/
def alert (env : AlertEnv) (alert_type : String) : String × List Ev :=
  if alert_type = "radio" then
    if env.radioExists then
      match env.readOutcome with
      | .error e =>
          ("Alert system malfunction: " ++ e ++
             ". Even my alerts work better than your code.", [])
      | .ok _ =>
          ("GLaDOS Alert: Playing radio transmission. I do hope this gets your attention.",
           [Ev.play env.radioData.1 env.radioData.2 false])
    else ("Sound file missing: looping_radio_mix.wav. How disappointing.", [])
  else if alert_type = "chime" then
    if env.chimeExists then
      match env.readOutcome with
      | .error e =>
          ("Alert system malfunction: " ++ e ++
             ". Even my alerts work better than your code.", [])
      | .ok _ =>
          ("GLaDOS Alert: Elevator chime activated. How... nostalgic.",
           [Ev.play env.chimeData.1 env.chimeData.2 false])
    else ("Sound file missing: portal_elevator_chime.wav. How disappointing.", [])
  else
    ("Alert type '" ++ alert_type ++ "' not recognized. Try 'radio' or 'chime'.",
     [])

/-- The body of `GladosManager.get_available_voices` (lines 220-229):
four prefix-filtered demographic entries plus the aggregate
`all_kokoro` entry. -/
def get_available_voices (mgr : GladosManager) : List (String × List String) :=
  [("kokoro_female_us", mgr.kokoro_voices.filter fun v => strStartsWith v "af_"),
   ("kokoro_female_british", mgr.kokoro_voices.filter fun v => strStartsWith v "bf_"),
   ("kokoro_male_us", mgr.kokoro_voices.filter fun v => strStartsWith v "am_"),
   ("kokoro_male_british", mgr.kokoro_voices.filter fun v => strStartsWith v "bm_"),
   ("all_kokoro", mgr.kokoro_voices)]

/-- The demographic categories of the returned mapping: the four
prefix-keyed entries; the fifth key `all_kokoro` is the aggregate list,
not a demographic category. -/
def demographicCategories (mgr : GladosManager) : List (String × List String) :=
  (get_available_voices mgr).take 4

/-- Modelled from the spec: `get_voices` lives in tts_kokoro.py, which is
not among the sources; the Kokoro catalog is taken from the voice list
documented at server.py lines 50-54 (26 identifiers). -/
def kokoroVoices : List String :=
  ["af_alloy", "af_aoede", "af_bella", "af_jessica", "af_kore", "af_nicole",
   "af_nova", "af_river", "af_sarah", "af_sky",
   "bf_alice", "bf_emma", "bf_isabella", "bf_lily",
   "am_adam", "am_echo", "am_eric", "am_fenrir", "am_liam", "am_michael",
   "am_onyx", "am_puck",
   "bm_daniel", "bm_fable", "bm_george", "bm_lewis"]

/-- Which statement of `GladosManager.__init__` (lines 73-104) fails, if
any: the converter construction (line 75, before the try), the GLaDOS
synthesizer construction, the Kokoro probe construction, or the
voice-list fetch (all inside the try); `allOk` carries the fetched
voice list. -/
inductive InitStep where
  | converterFails (msg : String)
  | gladosFails (msg : String)
  | kokoroFails (msg : String)
  | voicesFail (msg : String)
  | allOk (voices : List String)

/-- The body of `GladosManager.__init__`: statements before the failure
point keep their effects; an exception inside the try is caught and the
constructor returns normally, an exception from the converter
construction escapes (`Except.error`). `kokoro_synth` is never assigned
a synthesizer: the Kokoro probe instance is a local variable. -/
def initManager : InitStep → Except String GladosManager
  | .converterFails msg => .error msg
  | .gladosFails _ => .ok ⟨none, none, []⟩
  | .kokoroFails _ => .ok ⟨some (), none, []⟩
  | .voicesFail _ => .ok ⟨some (), none, []⟩
  | .allOk voices => .ok ⟨some (), none, voices⟩

/-- Modelled from the spec: the shared output device (sounddevice is not
among the sources). Starting a new stream stops whatever stream is
active and replaces it, the interrupt semantics of spec section 4.4
("Before starting any new stream, the coordinator must stop whatever
stream is currently active"); other events leave the device unchanged. -/
def deviceStep (active : List (List ℚ × ℕ)) : Ev → List (List ℚ × ℕ)
  | Ev.play samples rate _ => [(samples, rate)]
  | _ => active

/-- One external invocation of the manager, carrying the external
outcomes for that call. -/
inductive Call where
  | speakCall (mgr : GladosManager) (env : Env) (text : String)
      (voice : Option String) (volume : Option ℚ)
  | alertCall (env : AlertEnv) (kind : String)

/-- The event trace one call emits. -/
def Call.events : Call → List Ev
  | .speakCall mgr env text voice volume => (speak mgr env text voice volume).2
  | .alertCall env kind => (alert env kind).2

/-- The streams active on the output device after a sequence of calls,
starting from the idle device. -/
def runDevice (calls : List Call) : List (List ℚ × ℕ) :=
  calls.foldl (fun st c => c.events.foldl deviceStep st) []

/-- The clamp function exactly as the spec words it:
`clamp(v, 0, 1)` (spec section 4.4). -/
def specClamp (v : ℚ) : ℚ := if v < 0 then 0 else if 1 < v then 1 else v

/-- Whether an event is a `KokoroSynthesizer` construction. -/
def isConstructKokoro : Ev → Bool
  | Ev.constructKokoro _ => true
  | _ => false

/-- A manager whose initialization fully succeeded, holding the
documented catalog. -/
def mgrOk : GladosManager := ⟨some (), none, kokoroVoices⟩

/-- An environment where every external call succeeds, the personality
coin comes up 0.7 (at or above 0.3: no prefix), and each synthesizer
returns a single full-scale sample. -/
def envOk : Env := ⟨7/10, 0, id, .ok [1], 22050, .ok (), .ok [1], 24000, .ok ()⟩

/-- An environment where the GLaDOS synthesis call raises. -/
def envGladosFail : Env :=
  ⟨7/10, 0, id, .error "boom", 22050, .ok (), .ok [1], 24000, .ok ()⟩

/-- An environment where the Kokoro synthesis call raises. -/
def envKokoroFail : Env :=
  ⟨7/10, 0, id, .ok [1], 22050, .ok (), .error "boom", 24000, .ok ()⟩

/-- An environment where the personality coin comes up 0.1 (below 0.3)
and the draw picks index 2. -/
def envSassy : Env :=
  ⟨1/10, 2, id, .ok [1], 22050, .ok (), .ok [1], 24000, .ok ()⟩

/-- An alert environment where both sound files exist and the read
succeeds. -/
def alertEnvOk : AlertEnv := ⟨true, true, ([1], 44100), ([2], 44100), .ok ()⟩

/-- Helper: folding device steps preserves the bound of one active
stream. -/
theorem deviceStep_length_le : ∀ (evs : List Ev) (st : List (List ℚ × ℕ)),
    st.length ≤ 1 → (evs.foldl deviceStep st).length ≤ 1
  | [], _, h => h
  | e :: evs, st, h => by
    cases e with
    | play s r l => exact deviceStep_length_le evs _ (by simp [deviceStep])
    | constructKokoro v => exact deviceStep_length_le evs st h
    | synthGlados t => exact deviceStep_length_le evs st h
    | synthKokoro v t => exact deviceStep_length_le evs st h
    | wait => exact deviceStep_length_le evs st h

/-- Claim C1 (amended): at the manager interface, `speak` with no
explicit volume resolves the Primary path with the reduced default
volume 0.55 and the Secondary path with the full-scale default 1.0; but
the exposed MCP tool declares `volume: float = 1.0`, so an unspecified
volume at the exposed interface reaches the manager as an explicit 1.0
and the 0.55 Primary default is not applied there. -/
theorem speak_default_volumes (mgr : GladosManager) (env : Env)
    (text v : String) (hv : strLower v ≠ "glados") :
    speak mgr env text none none = speakGlados mgr env text (11/20) ∧
    speak mgr env text (some v) none = speakKokoro mgr env text v 1 ∧
    serverSpeakDefault mgr env text none = speakGlados mgr env text 1 := by
  refine ⟨rfl, ?_, rfl⟩
  simp [speak, hv]

/-- Witness for `speak_default_volumes` at a concrete voice. -/
theorem speak_default_volumes_witness :
    speak mgrOk envOk "Hello" (some "af_alloy") none =
      speakKokoro mgrOk envOk "Hello" "af_alloy" 1 :=
  (speak_default_volumes mgrOk envOk "Hello" "af_alloy" (by decide)).2.1

/-- Claim C1 fails as stated at the exposed interface: the MCP tool
`speak("Hello")` with no volume argument scales the full-scale sample by
1, not by the claimed Primary default 0.55; the traces differ. -/
theorem serverSpeak_default_volume_counterexample :
    (serverSpeakDefault mgrOk envOk "Hello" none).2 =
      [Ev.synthGlados "Hello", Ev.play [1] 22050 false, Ev.wait] ∧
    (speak mgrOk envOk "Hello" none none).2 =
      [Ev.synthGlados "Hello", Ev.play [11/20] 22050 false, Ev.wait] ∧
    ([1] : List ℚ) ≠ [11/20] := by
  refine ⟨?_, ?_, by norm_num⟩ <;>
    norm_num [serverSpeakDefault, serverSpeak, speak, speakGlados, personality,
      playAudio, envOk, mgrOk, min_def, max_def]

/-- Claim C2: after any sequence of `speak` and `alert` invocations, at
most one stream is active on the shared output device: every path to the
device goes through `sd.play`, which stops the active stream before
starting the new one. -/
theorem at_most_one_active_stream (calls : List Call) :
    (runDevice calls).length ≤ 1 := by
  have key : ∀ (cs : List Call) (st : List (List ℚ × ℕ)), st.length ≤ 1 →
      (cs.foldl (fun st c => c.events.foldl deviceStep st) st).length ≤ 1 := by
    intro cs
    induction cs with
    | nil => intro st h; exact h
    | cons c cs ih => intro st h; exact ih _ (deviceStep_length_le _ _ h)
  exact key calls [] (by simp)

/-- Claim C3: a voice that is neither the GLaDOS sentinel nor in the
Kokoro catalog makes `speak` return the not-found message listing at
most the first five catalog voices, with an empty event trace: no
synthesizer is constructed, no synthesis happens, nothing plays. -/
theorem speak_unknown_voice (mgr : GladosManager) (env : Env)
    (text v : String) (volume : Option ℚ)
    (hg : strLower v ≠ "glados") (hv : v ∉ mgr.kokoro_voices) :
    speak mgr env text (some v) volume =
      ("Voice '" ++ v ++ "' not found. Try: " ++
        String.intercalate ", " (mgr.kokoro_voices.take 5) ++ "...", []) ∧
    (mgr.kokoro_voices.take 5).length ≤ 5 := by
  constructor
  · simp [speak, hg, speakKokoro, hv]
  · simp [List.length_take]

/-- Witness for `speak_unknown_voice` at a concrete unknown voice. -/
theorem speak_unknown_voice_witness :
    speak mgrOk envOk "hi" (some "zz_missing") none =
      ("Voice 'zz_missing' not found. Try: " ++
        String.intercalate ", " (mgrOk.kokoro_voices.take 5) ++ "...", []) ∧
    (mgrOk.kokoro_voices.take 5).length ≤ 5 :=
  speak_unknown_voice mgrOk envOk "hi" "zz_missing" none (by decide) (by decide)

/-- Claim C4: the personality policy is engaged only on the Primary
path: the prefix list has exactly 5 entries (at least 5); when the coin
draw is below 0.3 exactly the drawn prefix is prepended and otherwise
the text is unchanged; every Secondary synthesis invocation receives
the spoken form of the caller's text unchanged, while the Primary
synthesis receives the personality-processed text. -/
theorem personality_only_primary :
    sassyPrefixes.length = 5 ∧
    (∀ (env : Env) (text : String), env.coin < 3/10 →
      personality env text =
        sassyPrefixes.getD (env.choiceIdx % sassyPrefixes.length) "" ++ text) ∧
    (∀ (env : Env) (text : String), ¬ env.coin < 3/10 →
      personality env text = text) ∧
    (∀ (mgr : GladosManager) (env : Env) (text voice : String) (volume : ℚ)
        (v t : String),
      Ev.synthKokoro v t ∈ (speakKokoro mgr env text voice volume).2 →
        t = env.toSpoken text) ∧
    (∀ (mgr : GladosManager) (env : Env) (text : String) (volume : ℚ)
        (t : String),
      Ev.synthGlados t ∈ (speakGlados mgr env text volume).2 →
        t = env.toSpoken (personality env text)) := by
  refine ⟨rfl, ?_, ?_, ?_, ?_⟩
  · intro env text h
    simp [personality, h]
  · intro env text h
    simp [personality, h]
  · rintro ⟨gs, ks, kv⟩ ⟨coin, idx, ts, gg, gr, kc, kg, kr, po⟩
      text voice volume v t hmem
    by_cases hv : voice ∈ kv
    · cases kc <;> cases kg <;> cases po <;>
        simp_all [speakKokoro, playAudio]
    · simp_all [speakKokoro]
  · rintro ⟨gs, ks, kv⟩ ⟨coin, idx, ts, gg, gr, kc, kg, kr, po⟩
      text volume t hmem
    cases gs <;> cases gg <;> cases po <;>
      simp_all [speakGlados, playAudio]

/-- Witness for `personality_only_primary`: at coin 0.1 with draw 2 the
third prefix is prepended; at coin 0.7 the text is unchanged. -/
theorem personality_only_primary_witness :
    personality envSassy "hi" =
      sassyPrefixes.getD (envSassy.choiceIdx % sassyPrefixes.length) "" ++ "hi" ∧
    personality envOk "hi" = "hi" :=
  ⟨personality_only_primary.2.1 envSassy "hi" (by norm_num [envSassy]),
   personality_only_primary.2.2.1 envOk "hi" (by norm_num [envOk])⟩

/-- Claim C5: `_play_audio` scales every sample by exactly
`clamp(volume, 0, 1)` — the code's `max(0.0, min(1.0, v))` agrees with
the spec's clamp — out-of-range volumes are silently clamped, the play
and wait events are emitted for every volume (no rejection), clamp
fixes `-1` to `0` and `2` to `1`, and in-range volumes pass through
unchanged. -/
theorem play_audio_clamps (audio : List ℚ) (rate : ℕ) (v : ℚ) :
    playAudio audio rate v =
      [Ev.play (audio.map fun s => s * specClamp v) rate false, Ev.wait] ∧
    specClamp (-1) = 0 ∧ specClamp 2 = 1 ∧
    0 ≤ specClamp v ∧ specClamp v ≤ 1 ∧
    (0 ≤ v → v ≤ 1 → specClamp v = v) := by
  have hmax : max 0 (min 1 v) = specClamp v := by
    unfold specClamp
    split_ifs with h1 h2
    · rw [min_eq_right (by linarith : v ≤ 1), max_eq_left h1.le]
    · rw [min_eq_left h2.le, max_eq_right zero_le_one]
    · rw [min_eq_right (not_lt.mp h2), max_eq_right (not_lt.mp h1)]
  refine ⟨by simp [playAudio, hmax], by norm_num [specClamp],
    by norm_num [specClamp], ?_, ?_, ?_⟩
  · rw [← hmax]; exact le_max_left _ _
  · rw [← hmax]; exact max_le zero_le_one (min_le_left _ _)
  · intro h0 h1
    unfold specClamp
    rw [if_neg (not_lt.mpr h0), if_neg (not_lt.mpr h1)]

/-- Witness for `play_audio_clamps`: the in-range volume 1/2 passes
through the clamp, and a volume of -1 still produces the play and wait
events. -/
theorem play_audio_clamps_witness :
    specClamp (1/2 : ℚ) = 1/2 ∧
    playAudio [1] 22050 (-1) =
      [Ev.play ([1].map fun s => s * specClamp (-1)) 22050 false, Ev.wait] :=
  ⟨(play_audio_clamps [] 0 (1/2)).2.2.2.2.2 (by norm_num) (by norm_num),
   (play_audio_clamps [1] 22050 (-1)).1⟩

/-- Claim C6 fails: two consecutive `speak` calls with the same Kokoro
voice each construct a fresh `KokoroSynthesizer` — in particular the
second identical-voice call performs one construction instead of zero
(it reuses nothing: `speak` reads no synthesizer state and the
`kokoro_synth` field stays untouched forever). -/
theorem kokoro_no_cache_counterexample :
    ((speak mgrOk envOk "one" (some "af_alloy") none).2 ++
        (speak mgrOk envOk "two" (some "af_alloy") none).2).countP
      isConstructKokoro = 2 ∧
    (speak mgrOk envOk "two" (some "af_alloy") none).2.countP
      isConstructKokoro = 1 := by
  have h1 : strLower "af_alloy" = "glados" ↔ False := by
    constructor
    · intro h; exact absurd h (by decide)
    · intro h; exact h.elim
  constructor <;>
    norm_num [speak, speakKokoro, playAudio, envOk, mgrOk, h1,
      List.countP_cons, List.countP_append, isConstructKokoro,
      show ("af_alloy" ∈ kokoroVoices) from by decide]

/-- Claim C6 (amended): every Secondary-path call whose voice passes
catalog validation constructs exactly one new `KokoroSynthesizer`, also
when the same voice was requested before; no adapter instance is cached
or reused. -/
theorem kokoro_constructs_every_call (mgr : GladosManager) (env : Env)
    (text voice : String) (volume : Option ℚ)
    (hg : strLower voice ≠ "glados") (hv : voice ∈ mgr.kokoro_voices) :
    (speak mgr env text (some voice) volume).2.countP isConstructKokoro = 1 := by
  obtain ⟨gs, ks, kv⟩ := mgr
  obtain ⟨coin, idx, ts, gg, gr, kc, kg, kr, po⟩ := env
  cases kc <;> cases kg <;> cases po <;>
    simp_all [speak, speakKokoro, playAudio, isConstructKokoro,
      List.countP_cons]

/-- Witness for `kokoro_constructs_every_call` at a concrete voice. -/
theorem kokoro_constructs_every_call_witness :
    (speak mgrOk envOk "hi" (some "af_alloy") none).2.countP
      isConstructKokoro = 1 :=
  kokoro_constructs_every_call mgrOk envOk "hi" "af_alloy" none
    (by decide) (by decide)

/-- Claim C7 evaluated at the failing input: with the radio file present
and a successful read, `alert "radio"` emits exactly one `sd.play`
request whose loop flag is `false` — sounddevice's default, which the
code never overrides, so the clip plays once instead of looping — and no
`sd.wait` (the call returns without blocking); an unknown kind returns
the rejection string with an empty event trace. -/
theorem alert_radio_eval :
    alert alertEnvOk "radio" =
      ("GLaDOS Alert: Playing radio transmission. I do hope this gets your attention.",
       [Ev.play [1] 44100 false]) ∧
    Ev.wait ∉ (alert alertEnvOk "radio").2 ∧
    (∀ loopFlag samples rate,
      Ev.play samples rate loopFlag ∈ (alert alertEnvOk "radio").2 →
        loopFlag = false) ∧
    alert alertEnvOk "mystery" =
      ("Alert type 'mystery' not recognized. Try 'radio' or 'chime'.", []) := by
  refine ⟨by decide, by decide, ?_, by decide⟩
  intro loopFlag samples rate hmem
  have : (alert alertEnvOk "radio").2 = [Ev.play [1] 44100 false] := by decide
  rw [this] at hmem
  simp at hmem
  exact hmem.2.2

/-- Claim C8: with the documented 26-voice catalog every Kokoro
identifier lies in exactly one of the four demographic categories of
`get_available_voices` — none omitted, none duplicated (the fifth entry
`all_kokoro` is the aggregate list repeating the whole catalog, not a
demographic category). -/
theorem voices_partitioned :
    ∀ v ∈ mgrOk.kokoro_voices,
      ((demographicCategories mgrOk).countP fun c => decide (v ∈ c.2)) = 1 := by
  decide

/-- Witness for `voices_partitioned` at a concrete identifier. -/
theorem voices_partitioned_witness :
    ((demographicCategories mgrOk).countP
      fun c => decide ("af_alloy" ∈ c.2)) = 1 :=
  voices_partitioned "af_alloy" (by decide)

/-- Claim C9 fails: when initialization fails at the Kokoro probe the
constructor returns normally but the GLaDOS synthesizer field is
already set, not `None`; and a failure of the converter construction
(which stands before the try) escapes the constructor. -/
theorem init_counterexample :
    initManager (InitStep.kokoroFails "boom") =
      Except.ok ⟨some (), none, []⟩ ∧
    (⟨some (), none, []⟩ : GladosManager).glados_synth ≠ none ∧
    initManager (InitStep.converterFails "torn") = Except.error "torn" :=
  ⟨rfl, by simp, rfl⟩

/-- Claim C9 (amended): failures inside the constructor's guarded block
are caught and the constructor returns normally with `kokoro_synth`
unset and an empty catalog; `glados_synth` stays `None` only when its
own construction failed and is already set when the failure comes
later; a `None` GLaDOS synthesizer surfaces through `speak` as the
fixed error status string rather than a raised fault. The converter is
constructed before the guard, so its failure still escapes. -/
theorem init_catches_synth_failures (msg : String) (env : Env)
    (text : String) (volume : Option ℚ) :
    initManager (InitStep.gladosFails msg) = Except.ok ⟨none, none, []⟩ ∧
    initManager (InitStep.kokoroFails msg) = Except.ok ⟨some (), none, []⟩ ∧
    initManager (InitStep.voicesFail msg) = Except.ok ⟨some (), none, []⟩ ∧
    speak ⟨none, none, []⟩ env text none volume =
      ("Speech synthesis failed. How disappointing.", []) ∧
    initManager (InitStep.converterFails msg) = Except.error msg :=
  ⟨rfl, rfl, rfl, rfl, rfl⟩

/-- Claim C10: error detail in the returned status is asymmetric: every
Primary-path failure — unset synthesizer, synthesis error or playback
error — yields the fixed string carrying no cause, while every
Secondary-path failure past voice validation yields a message carrying
the exception text. -/
theorem error_detail_asymmetry (mgr : GladosManager) (env : Env)
    (text voice : String) (volume : ℚ) (e : String) :
    ((mgr.glados_synth = none ∨ env.gladosGen = Except.error e ∨
        env.playOutcome = Except.error e) →
      (speakGlados mgr env text volume).1 =
        "Speech synthesis failed. How disappointing.") ∧
    (voice ∈ mgr.kokoro_voices →
      (env.kokoroConstruct = Except.error e →
        (speakKokoro mgr env text voice volume).1 =
          "Voice synthesis failed: " ++ e) ∧
      (env.kokoroConstruct = Except.ok () → env.kokoroGen = Except.error e →
        (speakKokoro mgr env text voice volume).1 =
          "Voice synthesis failed: " ++ e) ∧
      (env.kokoroConstruct = Except.ok () → (∃ a, env.kokoroGen = Except.ok a) →
        env.playOutcome = Except.error e →
        (speakKokoro mgr env text voice volume).1 =
          "Voice synthesis failed: " ++ e)) := by
  obtain ⟨gs, ks, kv⟩ := mgr
  obtain ⟨coin, idx, ts, gg, gr, kc, kg, kr, po⟩ := env
  constructor
  · intro h
    cases gs <;> cases gg <;> cases po <;> simp_all [speakGlados]
  · intro hv
    refine ⟨?_, ?_, ?_⟩ <;>
      cases kc <;> cases kg <;> cases po <;>
        simp_all [speakKokoro]

/-- Witness for `error_detail_asymmetry`: a Kokoro synthesis exception
with text "boom" surfaces in the status, while a GLaDOS synthesis
exception with the same text yields only the fixed string. -/
theorem error_detail_asymmetry_witness :
    (speakKokoro mgrOk envKokoroFail "hi" "af_alloy" 1).1 =
      "Voice synthesis failed: boom" ∧
    (speakGlados mgrOk envGladosFail "hi" 1).1 =
      "Speech synthesis failed. How disappointing." :=
  ⟨((error_detail_asymmetry mgrOk envKokoroFail "hi" "af_alloy" 1 "boom").2
      (by decide)).2.1 rfl rfl,
   (error_detail_asymmetry mgrOk envGladosFail "hi" "af_alloy" 1 "boom").1
     (Or.inr (Or.inl rfl))⟩
